import Mathlib

/-!
Verification of the Sprint_Analysis pipeline: a shallow embedding of the
normalize → score → route pipeline of `sprint_checker.py`, `dashboard.py`,
`executive_sprint_summary.py`, `insights_service.py` and `jira_client.py`,
with theorems settling the specification's claims about it.

Conventions of the embedding:
* Python dicts/CSV rows become Lean structures; machine integers are `Nat`/`Int`.
* A Python function that can raise is modelled as returning `Option`/`Except`;
  `none` marks the raising path.
* `random.choice(xs)` is modelled by threading an explicit stream of draws
  `Nat → Nat` and picking `xs[draw % len(xs)]`.
* Timestamps are modelled at calendar-day granularity as day numbers `Nat`;
  `isoformat()[:10]` of `today - days_ago` becomes a canonical string of the
  day number `today - days_ago`.
-/

namespace SprintAnalysis

/-- A row of the persisted record file, i.e. the canonical Issue Record with the
CSV header `Query_Type, Issue_Key, Summary, Status, Assignee, Priority,
Story_Points, Last_Updated, Alert_Level` (`sprint_checker.py`, `generate_csv`). -/
structure Record where
  queryType : String
  issueKey : String
  summary : String
  status : String
  assignee : String
  priority : String
  storyPoints : Nat
  lastUpdated : String
  alertLevel : String
deriving Repr, DecidableEq

/-- `len(df[df["Alert_Level"] == "CRITICAL"])` (`dashboard.py` line 21). -/
def countCritical (df : List Record) : Nat :=
  (df.filter (fun r => r.alertLevel == "CRITICAL")).length

/-- `len(df[df["Alert_Level"] == "WARNING"])` (`dashboard.py` line 22). -/
def countWarning (df : List Record) : Nat :=
  (df.filter (fun r => r.alertLevel == "WARNING")).length

/-- `len(df[(df["Alert_Level"] == "HIGH") & (df["Assignee"] == "UNASSIGNED")])`
(`dashboard.py` line 23). -/
def countUnassignedHigh (df : List Record) : Nat :=
  (df.filter (fun r => r.alertLevel == "HIGH" && r.assignee == "UNASSIGNED")).length

/-- `len(df[df["Alert_Level"] == "DONE"])`, the `done` group of
`dashboard.py` `generate_dashboard` line 51. -/
def countDone (df : List Record) : Nat :=
  (df.filter (fun r => r.alertLevel == "DONE")).length

/-- `dashboard.py`, `calculate_sprint_health`: start from 100, subtract
25 per CRITICAL, 10 per WARNING, 5 per unassigned HIGH, floor at 5. -/
def calculate_sprint_health (df : List Record) : Int :=
  let blockers : Int := countCritical df
  let stalled : Int := countWarning df
  let unassigned : Int := countUnassignedHigh df
  max (100 - blockers * 25 - stalled * 10 - unassigned * 5) 5

/-- The JSON value found under the `assignee` key of a raw payload's `fields`
dict: the key can be absent, hold `null`, or hold a (non-empty) assignee object
whose `displayName` lookup yields `some name` or `none` (key missing). -/
inductive JsonAssignee where
  | absent
  | null
  | obj (displayName : Option String)
deriving Repr, DecidableEq

/-- The `fields` dict of a raw issue payload, restricted to the keys the
normalizers read (`sprint_checker.py` `generate_csv`, `jira_client.py`
`fetch_jira_dataframe`). `priorityName` is `priority["name"]` when the
`priority` key holds a truthy dict, `none` when `priority` is absent or null;
`customfield10024` is the story-points custom field, `none` when missing;
`issuelinks` is the number of entries of the `issuelinks` list. -/
structure RawFields where
  summary : String
  statusName : String
  assignee : JsonAssignee
  priorityName : Option String
  updated : String
  issuelinks : Nat
  customfield10024 : Option Nat
deriving Repr, DecidableEq

/-- A raw issue payload as returned by `run_query` / `_mock_data`. -/
structure RawIssue where
  key : String
  fields : RawFields
deriving Repr, DecidableEq

/-- The assignee extraction of `sprint_checker.py` `generate_csv` line 106:
`fields["assignee"]["displayName"] if fields["assignee"] else "UNASSIGNED"`.
An absent `assignee` key raises `KeyError` (modelled `none`), `null` is falsy
so the sentinel is substituted, an assignee object without a `displayName` key
raises `KeyError` (modelled `none`), and otherwise the display name is used. -/
def sprintAssignee : JsonAssignee → Option String
  | .absent => none
  | .null => some "UNASSIGNED"
  | .obj none => none
  | .obj (some n) => some n

/-- The assignee extraction of `jira_client.py` `fetch_jira_dataframe` line 57:
`fields.get("assignee", {}).get("displayName", "UNASSIGNED")`. An absent key
defaults to `{}` whose `displayName` lookup falls back to the sentinel; a
`null` value makes the second `.get` an attribute access on `None`, raising
`AttributeError` (modelled `none`); an object yields its display name, with the
sentinel as fallback when `displayName` is missing. -/
def jiraClientAssignee : JsonAssignee → Option String
  | .absent => some "UNASSIGNED"
  | .null => none
  | .obj none => some "UNASSIGNED"
  | .obj (some n) => some n

/-- The alert-level expression of `sprint_checker.py` `generate_csv` line 110:
`"CRITICAL" if name == "blockers" else "WARNING" if name == "stalled" else
"HIGH"`. -/
def alertLevelOf (name : String) : String :=
  if name = "blockers" then "CRITICAL"
  else if name = "stalled" then "WARNING"
  else "HIGH"

/-- One loop iteration of `generate_csv` (lines 100-111): build the CSV row for
one raw issue of the query `name`. `spDefault` is the value of the
`random.choice([2, 3, 5])` draw used when `customfield_10024` is missing.
`none` models an exception escaping the row construction (the `KeyError` paths
of the assignee access). -/
def normalizeIssue (name : String) (issue : RawIssue) (spDefault : Nat) :
    Option Record :=
  match sprintAssignee issue.fields.assignee with
  | none => none
  | some asg => some
      { queryType := name
        issueKey := issue.key
        summary := issue.fields.summary.take 60
        status := issue.fields.statusName
        assignee := asg
        priority := issue.fields.priorityName.getD "None"
        storyPoints := issue.fields.customfield10024.getD spDefault
        lastUpdated := issue.fields.updated.take 10
        alertLevel := alertLevelOf name }

/-- The inner `for issue in issues` loop of `generate_csv` over one query's
result list; `draws` streams the `random.choice([2, 3, 5])` default draws. -/
def normalizeList (name : String) (draws : Nat → Nat) :
    List RawIssue → Option (List Record)
  | [] => some []
  | issue :: rest =>
      match normalizeIssue name issue (draws 0) with
      | none => none
      | some r =>
          match normalizeList name (fun n => draws (n + 1)) rest with
          | none => none
          | some rs => some (r :: rs)

/-- The fixed iteration order of the `queries` dict of `generate_csv`
(lines 91-95): Python dicts iterate in insertion order. -/
def queryNames : List String := ["blockers", "stalled", "unassigned"]

/-- The record set written by `generate_csv` (lines 97-111): for each query
name in the fixed dict order, fetch that query's raw issues and normalize each;
`fetch` abstracts `run_query` composed with the JQL of the query, and `draws`
streams the per-query default story-point draws. `none` models an exception
aborting the run. -/
def generateRecords (fetch : String → List RawIssue)
    (draws : String → Nat → Nat) : Option (List Record) :=
  match normalizeList "blockers" (draws "blockers") (fetch "blockers") with
  | none => none
  | some bs =>
    match normalizeList "stalled" (draws "stalled") (fetch "stalled") with
    | none => none
    | some ss =>
      match normalizeList "unassigned" (draws "unassigned")
          (fetch "unassigned") with
      | none => none
      | some us => some (bs ++ ss ++ us)

/-- The claim's category → alert-level mapping (spec §3): blockers→CRITICAL,
stalled→WARNING, unassigned→HIGH, done→DONE. Stated from the spec's words, to
be compared with the code's `alertLevelOf`. -/
def specAlertMapping : String → String
  | "blockers" => "CRITICAL"
  | "stalled" => "WARNING"
  | "unassigned" => "HIGH"
  | "done" => "DONE"
  | _ => ""

/-- Whether `sub` occurs as a contiguous run of `s` (checked at every start
position). -/
def containsSubList (sub : List Char) : List Char → Bool
  | [] => sub.isEmpty
  | c :: rest => sub.isPrefixOf (c :: rest) || containsSubList sub rest

/-- Python `sub in s` on strings, as used by `_mock_data` to branch on the
JQL text. -/
def containsSub (s sub : String) : Bool :=
  containsSubList sub.data s.data

/-- `random.choice(xs)`: pick an element of `xs`, the selection driven by the
external draw `r`. -/
def randomChoice (xs : List Nat) (r : Nat) : Nat :=
  xs.getD (r % xs.length) 0

/-- The `make` helper of `_mock_data` (lines 50-62): build one mock raw
payload. `today` is the current day number, `daysAgo` the `days_ago` argument,
`blockers` the number of synthetic `issuelinks`, and `r` the
`random.choice([1, 2, 3, 5])` draw for `customfield_10024`. The
`(today - timedelta(days=days_ago)).isoformat()` timestamp is modelled at day
granularity as the canonical string of the day number. -/
def make (key summary status : String) (assignee : Option String)
    (priority : String) (daysAgo : Nat) (blockers : Nat) (today : Nat)
    (r : Nat) : RawIssue :=
  { key := key
    fields :=
      { summary := summary
        statusName := status
        assignee := match assignee with
          | some a => .obj (some a)
          | none => .null
        priorityName := some priority
        updated := toString (today - daysAgo)
        issuelinks := blockers
        customfield10024 := some (randomChoice [1, 2, 3, 5] r) } }

/-- `sprint_checker.py` `_mock_data` (lines 47-76): the fixture payloads,
selected by substring tests on the JQL; `rnd` streams the per-record
`random.choice([1, 2, 3, 5])` draws in creation order. -/
def mock_data (jql : String) (today : Nat) (rnd : Nat → Nat) :
    List RawIssue :=
  if containsSub jql "Blocked" then
    [ make "GK-124" "POS integration blocked by payment gateway timeout"
        "Blocked" (some "Alice Smith") "Highest" 1 2 today (rnd 0),
      make "GK-131" "Hotel booking API rate limited by external provider"
        "Blocked" (some "Bob Jones") "High" 0 1 today (rnd 1) ]
  else if containsSub jql "updated <=" then
    [ make "GK-115" "Update menu pricing across pub chain" "In Progress"
        (some "Charlie Brown") "Medium" 3 0 today (rnd 0),
      make "GK-119" "Refactor customer loyalty points calculation"
        "In Progress" (some "Diana Prince") "Medium" 5 0 today (rnd 1) ]
  else if containsSub jql "assignee is EMPTY" then
    [ make "GK-130" "URGENT: Fix production bug in table ordering app"
        "To Do" none "Highest" 0 0 today (rnd 0) ]
  else
    [ make "GK-125" "Implement staff rostering feature" "In Progress"
        (some "Eve Adams") "High" 0 0 today (rnd 0) ]

/-- The JQL strings of the `queries` dict of `generate_csv` (lines 91-95),
with the configured project key substituted. -/
def jqlOf (projectKey name : String) : String :=
  if name = "blockers" then
    "project = " ++ projectKey ++
      " AND sprint in openSprints() AND (labels = \"blocked\" OR status = \"Blocked\")"
  else if name = "stalled" then
    "project = " ++ projectKey ++
      " AND sprint in openSprints() AND status = \"In Progress\" AND updated <= -2d"
  else
    "project = " ++ projectKey ++
      " AND sprint in openSprints() AND assignee is EMPTY AND priority = High"

/-- `run_query` in mock mode (lines 36-37) composed with the JQL construction
of `generate_csv`: fetch the mock fixtures for a query name, for the mock
project `GK`. `rnd` gives the draw stream for each query's `_mock_data` call. -/
def mockFetch (today : Nat) (rnd : String → Nat → Nat) (name : String) :
    List RawIssue :=
  mock_data (jqlOf "GK" name) today (rnd name)

/-- Erase the randomized story-points field of a raw payload (used to state
determinism of the mock source up to the random story points). -/
def eraseSP (i : RawIssue) : RawIssue :=
  { i with fields := { i.fields with customfield10024 := none } }

/-- One destination entry of the `alerts.destinations` configuration map:
its `enabled` flag plus the per-destination settings, which the router itself
only hands on to the channel senders and are therefore left abstract here. -/
structure DestConfig where
  enabled : Bool
deriving Repr, DecidableEq

/-- The alert configuration read in `SprintHealthChecker.__init__`
(lines 32-33): the global enable flag and the destinations map, modelled as
an association list in dict insertion order. -/
structure AlertsConfig where
  alerts_enabled : Bool
  destinations : List (String × DestConfig)
deriving Repr, DecidableEq

/-- The outcome the router records for one attempted destination. -/
inductive Outcome where
  /-- The channel sender returned normally. -/
  | delivered
  /-- The channel sender raised; `send_alerts` caught the exception and logged
  `Alert failed for ...` (lines 156-157). -/
  | deliveryFailed (e : String)
  /-- An unrecognized destination type name; `send_alerts` logged
  `Unknown destination type` (lines 154-155). -/
  | unknownType
deriving Repr, DecidableEq

/-- The overall result of one `send_alerts` run. -/
inductive SendResult where
  /-- Early return: `Alerts are disabled globally` (lines 127-129). -/
  | disabledGlobally
  /-- Early return: `No alert destinations configured` (lines 131-133). -/
  | noDestinations
  /-- Early return: `No critical alerts to send` (lines 137-139). -/
  | noCritical
  /-- The dispatch loop ran; one entry per attempted destination, in map
  order. -/
  | routed (attempts : List (String × Outcome))
deriving Repr, DecidableEq

/-- A `send_alerts` run: its result plus whether `_get_critical_issues` was
reached (i.e. whether the record file was read). -/
structure SendReport where
  result : SendResult
  fileRead : Bool
deriving Repr, DecidableEq

/-- `_get_critical_issues` (lines 115-123): read the record file and keep the
CRITICAL rows; a missing file (`none`) is caught (`FileNotFoundError`) and
yields the empty list instead of propagating. -/
def getCriticalIssues (file : Option (List Record)) : List Record :=
  match file with
  | none => []
  | some rows => rows.filter (fun r => r.alertLevel == "CRITICAL")

/-- The body of one iteration of the dispatch loop (lines 147-157) for an
enabled destination: known type names dispatch through their channel sender,
whose outcome is the externally supplied `deliver`; an exception becomes a
logged failure; unknown names get a warning. -/
def attemptOne (deliver : String → List Record → Except String Unit)
    (criticals : List Record) (destType : String) : Outcome :=
  if destType == "slack" || destType == "teams" || destType == "email" then
    match deliver destType criticals with
    | .ok _ => .delivered
    | .error e => .deliveryFailed e
  else .unknownType

/-- The `for dest_type, config in self.destinations.items()` loop of
`send_alerts` (lines 143-157): disabled destinations are skipped; each enabled
one is attempted with isolated failure handling and the loop continues. -/
def sendLoop (deliver : String → List Record → Except String Unit)
    (criticals : List Record) :
    List (String × DestConfig) → List (String × Outcome)
  | [] => []
  | (destType, config) :: rest =>
      if config.enabled then
        (destType, attemptOne deliver criticals destType) ::
          sendLoop deliver criticals rest
      else sendLoop deliver criticals rest

/-- `send_alerts` (lines 125-157): the global-enable and empty-destinations
guards return before the record file is touched; then the critical subset is
extracted and, when non-empty, routed to every enabled destination. -/
def send_alerts (cfg : AlertsConfig)
    (deliver : String → List Record → Except String Unit)
    (file : Option (List Record)) : SendReport :=
  if !cfg.alerts_enabled then
    { result := .disabledGlobally, fileRead := false }
  else if cfg.destinations.isEmpty then
    { result := .noDestinations, fileRead := false }
  else
    let criticals := getCriticalIssues file
    if criticals.isEmpty then
      { result := .noCritical, fileRead := true }
    else
      { result := .routed (sendLoop deliver criticals cfg.destinations),
        fileRead := true }

/-- The destinations a routed run attempted (empty on every early return). -/
def attemptsOf : SendResult → List (String × Outcome)
  | .routed attempts => attempts
  | _ => []

/-- The KPI bundle returned by `compute_kpis` (`executive_sprint_summary.py`
lines 14-47). `delivery_pct` is rational; ties of the one-decimal rounding are
resolved upward here where Python's `round` is half-to-even (no claim touches
a tie). -/
structure Kpis where
  committed : Nat
  completed : Nat
  delivery_pct : ℚ
  carryover : Int
  risks : List String
  recs : List String
deriving Repr, DecidableEq

/-- `round(x, 1)`: round to one decimal place. -/
def round1 (q : ℚ) : ℚ :=
  (round (q * 10) : Int) / 10

/-- `executive_sprint_summary.py` `compute_kpis` (lines 14-47): sums, delivery
percentage, carryover, and the independently evaluated risk and recommendation
rules, appended in source order. -/
def compute_kpis (df : List Record) : Kpis :=
  let committed : Nat := (df.map (·.storyPoints)).sum
  let completed : Nat :=
    ((df.filter (fun r => r.status == "Done")).map (·.storyPoints)).sum
  let delivery_pct : ℚ :=
    if committed ≠ 0 then round1 ((completed : ℚ) / (committed : ℚ) * 100)
    else 0
  let carryover : Int := (committed : Int) - (completed : Int)
  let blockers := (df.filter (fun r => r.status == "Blocked")).length
  let stalled :=
    (df.filter (fun r =>
      r.status == "In Progress" && r.alertLevel == "WARNING")).length
  let unassigned :=
    (df.filter (fun r => r.assignee.toUpper == "UNASSIGNED")).length
  let risks :=
    (if blockers ≠ 0 then
      [toString blockers ++ " blockers are impacting throughput."] else []) ++
    (if stalled ≠ 0 then
      [toString stalled ++ " items show prolonged inactivity."] else []) ++
    (if unassigned ≠ 0 then
      ["Unassigned high-priority work is delaying flow."] else []) ++
    (if (carryover : ℚ) > (committed : ℚ) * (4 / 10) then
      [toString carryover ++ " SP likely rolling to next sprint."] else [])
  let risks := if risks = [] then ["No major risks detected."] else risks
  let recs :=
    (if blockers ≠ 0 then
      ["Escalate dependency blockers within 24h."] else []) ++
    (if stalled ≠ 0 then
      ["Introduce aged-WIP triage at daily standup."] else []) ++
    (if unassigned ≠ 0 then
      ["Prevent unassigned high-priority items entering sprint."] else []) ++
    (if delivery_pct < 80 then
      ["Reduce WIP or slice stories smaller next sprint."] else [])
  let recs :=
    if recs = [] then ["Flow appears stable — maintain current practices."]
    else recs
  { committed := committed, completed := completed,
    delivery_pct := delivery_pct, carryover := carryover,
    risks := risks, recs := recs }

/-- `workload[person] = workload.get(person, 0) + sp` (`sprint_checker.py`
lines 283-286): add `sp` to `person`'s dict entry, inserting it at the end
when absent (Python dicts keep insertion order). -/
def addSP (person : String) (sp : Nat) :
    List (String × Nat) → List (String × Nat)
  | [] => [(person, sp)]
  | (q, t) :: rest =>
      if q = person then (q, t + sp) :: rest
      else (q, t) :: addSP person sp rest

/-- The workload dict built by the `for r in rows` loop of `analyse_csv`
(lines 282-286): story points aggregated by assignee over the full record
set. -/
def workload (rows : List Record) : List (String × Nat) :=
  rows.foldl (fun w r => addSP r.assignee r.storyPoints w) []

/-- `overloaded = [p for p, total in workload.items() if total >= 13 and
p != "UNASSIGNED"]` (`analyse_csv` line 288). -/
def overloaded (rows : List Record) : List String :=
  (((workload rows).filter
    (fun pt => 13 ≤ pt.2 && pt.1 != "UNASSIGNED"))).map (·.1)

/-- The total story points of `person`'s records in the record set (the
aggregate the overload rule is specified against). -/
def totalSP (rows : List Record) (person : String) : Nat :=
  (((rows.filter (fun r => r.assignee == person))).map (·.storyPoints)).sum

/-- The sum of the values stored under key `q` in an association list (equals
the stored value when keys are unique). -/
def valueOf (w : List (String × Nat)) (q : String) : Nat :=
  ((w.filter (fun e => e.1 == q)).map (·.2)).sum

end SprintAnalysis

namespace SprintAnalysis

/-- Every record produced by one query's normalization loop carries that
query's name and the alert level the code derives from it. -/
theorem normalizeList_mem (name : String) :
    ∀ (draws : Nat → Nat) (issues : List RawIssue) (rs : List Record),
      normalizeList name draws issues = some rs →
      ∀ r ∈ rs, r.queryType = name ∧ r.alertLevel = alertLevelOf name := by
  intro draws issues
  induction issues generalizing draws with
  | nil =>
    intro rs h r hr
    simp only [normalizeList, Option.some.injEq] at h
    subst h
    simp at hr
  | cons i is ih =>
    intro rs h r hr
    simp only [normalizeList] at h
    cases hni : normalizeIssue name i (draws 0) with
    | none => rw [hni] at h; exact absurd h (by simp)
    | some r0 =>
      rw [hni] at h
      cases hnl : normalizeList name (fun n => draws (n + 1)) is with
      | none => rw [hnl] at h; exact absurd h (by simp)
      | some rs0 =>
        rw [hnl] at h
        simp only [Option.some.injEq] at h
        subst h
        rcases List.mem_cons.mp hr with h1 | h2
        · subst h1
          unfold normalizeIssue at hni
          cases hsa : sprintAssignee i.fields.assignee with
          | none => rw [hsa] at hni; exact absurd hni (by simp)
          | some a =>
            rw [hsa] at hni
            simp only [Option.some.injEq] at hni
            subst hni
            exact ⟨rfl, rfl⟩
        · exact ih _ _ hnl r h2

/-- Every record of a successfully generated record set comes from one of the
three queries and carries the alert level derived from its query name. -/
theorem generateRecords_mem {fetch : String → List RawIssue}
    {draws : String → Nat → Nat} {recs : List Record}
    (h : generateRecords fetch draws = some recs) {r : Record}
    (hr : r ∈ recs) :
    r.queryType ∈ queryNames ∧ r.alertLevel = alertLevelOf r.queryType := by
  unfold generateRecords at h
  cases hb : normalizeList "blockers" (draws "blockers") (fetch "blockers") with
  | none => rw [hb] at h; exact absurd h (by simp)
  | some bs =>
    rw [hb] at h
    cases hs : normalizeList "stalled" (draws "stalled") (fetch "stalled") with
    | none => rw [hs] at h; exact absurd h (by simp)
    | some ss =>
      rw [hs] at h
      cases hu : normalizeList "unassigned" (draws "unassigned")
          (fetch "unassigned") with
      | none => rw [hu] at h; exact absurd h (by simp)
      | some us =>
        rw [hu] at h
        simp only [Option.some.injEq] at h
        subst h
        rcases List.mem_append.mp hr with h1 | h1
        · rcases List.mem_append.mp h1 with h2 | h2
          · obtain ⟨hq, hl⟩ := normalizeList_mem _ _ _ _ hb r h2
            rw [hq, hl]
            exact ⟨by simp [queryNames], rfl⟩
          · obtain ⟨hq, hl⟩ := normalizeList_mem _ _ _ _ hs r h2
            rw [hq, hl]
            exact ⟨by simp [queryNames], rfl⟩
        · obtain ⟨hq, hl⟩ := normalizeList_mem _ _ _ _ hu r h1
          rw [hq, hl]
          exact ⟨by simp [queryNames], rfl⟩

/-- C1: the health score equals
`max (100 - 25*critical - 10*warning - 5*unassignedHigh) 5`, lies in `[5, 100]`,
and depends only on the three counts. -/
theorem health_score_formula_bounds_and_purity (df : List Record) :
    calculate_sprint_health df =
      max (100 - 25 * (countCritical df : Int) - 10 * (countWarning df : Int)
            - 5 * (countUnassignedHigh df : Int)) 5 ∧
    5 ≤ calculate_sprint_health df ∧ calculate_sprint_health df ≤ 100 ∧
    (∀ df' : List Record, countCritical df' = countCritical df →
      countWarning df' = countWarning df →
      countUnassignedHigh df' = countUnassignedHigh df →
      calculate_sprint_health df' = calculate_sprint_health df) := by
  refine ⟨by unfold calculate_sprint_health; ring_nf, ?_, ?_, ?_⟩
  · exact le_max_right _ _
  · unfold calculate_sprint_health
    have hb : (0 : Int) ≤ (countCritical df : Int) * 25 := by positivity
    have hs : (0 : Int) ≤ (countWarning df : Int) * 10 := by positivity
    have hu : (0 : Int) ≤ (countUnassignedHigh df : Int) * 5 := by positivity
    refine max_le (by omega) (by norm_num)
  · intro df' h1 h2 h3
    unfold calculate_sprint_health
    rw [h1, h2, h3]

/-- Witness for C1 at a concrete record set (one CRITICAL record):
all four clauses instantiated, the purity clause discharged at a concrete pair
of record sets with equal counts. -/
theorem health_score_formula_bounds_and_purity_witness :
    calculate_sprint_health
        [{ queryType := "blockers", issueKey := "GK-1", summary := "s",
           status := "Blocked", assignee := "Alice", priority := "Highest",
           storyPoints := 3, lastUpdated := "2025-01-01",
           alertLevel := "CRITICAL" }] = 75 ∧
    calculate_sprint_health
        [{ queryType := "blockers", issueKey := "GK-2", summary := "t",
           status := "Blocked", assignee := "Bob", priority := "High",
           storyPoints := 5, lastUpdated := "2025-01-02",
           alertLevel := "CRITICAL" }] = 75 := by
  have h := health_score_formula_bounds_and_purity
      [{ queryType := "blockers", issueKey := "GK-1", summary := "s",
         status := "Blocked", assignee := "Alice", priority := "Highest",
         storyPoints := 3, lastUpdated := "2025-01-01",
         alertLevel := "CRITICAL" }]
  refine ⟨?_, ?_⟩
  · rw [h.1]; decide
  · rw [h.2.2.2
      [{ queryType := "blockers", issueKey := "GK-2", summary := "t",
         status := "Blocked", assignee := "Bob", priority := "High",
         storyPoints := 5, lastUpdated := "2025-01-02",
         alertLevel := "CRITICAL" }] (by decide) (by decide) (by decide)]
    rw [h.1]; decide

/-- C2 counterexample: the claimed mapping has done→DONE, but the code's
alert-level expression sends every category other than `blockers` and
`stalled` — including `done` — to HIGH, so at query category `done` the code
disagrees with the claimed mapping. -/
theorem alert_mapping_done_cex :
    alertLevelOf "done" = "HIGH" ∧ specAlertMapping "done" = "DONE" ∧
      alertLevelOf "done" ≠ specAlertMapping "done" := by
  refine ⟨rfl, rfl, ?_⟩
  decide

/-- C2 (amended): every record of a successfully generated record set carries
the alert level that is a pure function of its query type per the code's
mapping blockers→CRITICAL, stalled→WARNING, any other category→HIGH; only the
three categories blockers/stalled/unassigned are ever produced, each consistent
with the claimed mapping on those categories, and no DONE record exists. -/
theorem alert_level_pure_function_of_query_type
    (fetch : String → List RawIssue) (draws : String → Nat → Nat)
    (recs : List Record) (h : generateRecords fetch draws = some recs)
    (r : Record) (hr : r ∈ recs) :
    r.queryType ∈ queryNames ∧
    r.alertLevel = alertLevelOf r.queryType ∧
    (r.queryType = "blockers" ↔ r.alertLevel = "CRITICAL") ∧
    (r.queryType = "stalled" ↔ r.alertLevel = "WARNING") ∧
    (r.queryType = "unassigned" ↔ r.alertLevel = "HIGH") ∧
    r.alertLevel ≠ "DONE" := by
  obtain ⟨hq, hl⟩ := generateRecords_mem h hr
  refine ⟨hq, hl, ?_, ?_, ?_, ?_⟩ <;>
    rcases (by simpa [queryNames] using hq : r.queryType = "blockers" ∨
        r.queryType = "stalled" ∨ r.queryType = "unassigned") with h1 | h1 | h1 <;>
      rw [hl, h1] <;> simp [alertLevelOf]

set_option maxRecDepth 16000 in
/-- C2 witness: the first record of the concrete mock-mode run, with all
hypotheses discharged at concrete inputs. -/
theorem alert_level_pure_function_of_query_type_witness :
    ({ queryType := "blockers", issueKey := "GK-124",
       summary := "POS integration blocked by payment gateway timeout",
       status := "Blocked", assignee := "Alice Smith", priority := "Highest",
       storyPoints := 1, lastUpdated := "99",
       alertLevel := "CRITICAL" } : Record).queryType ∈ queryNames ∧
    ({ queryType := "blockers", issueKey := "GK-124",
       summary := "POS integration blocked by payment gateway timeout",
       status := "Blocked", assignee := "Alice Smith", priority := "Highest",
       storyPoints := 1, lastUpdated := "99",
       alertLevel := "CRITICAL" } : Record).alertLevel =
      alertLevelOf "blockers" := by
  have h := alert_level_pure_function_of_query_type
    (mockFetch 100 (fun _ _ => 0)) (fun _ _ => 0)
    ((generateRecords (mockFetch 100 (fun _ _ => 0)) (fun _ _ => 0)).getD [])
    (by rfl)
    { queryType := "blockers", issueKey := "GK-124",
      summary := "POS integration blocked by payment gateway timeout",
      status := "Blocked", assignee := "Alice Smith", priority := "Highest",
      storyPoints := 1, lastUpdated := "99", alertLevel := "CRITICAL" }
    (by decide)
  exact ⟨h.1, h.2.1⟩

set_option maxRecDepth 16000 in
/-- C3 counterexample: the concrete mock-mode run (any fixed day and random
stream) yields zero DONE records, not the claimed three. -/
theorem mock_mode_done_count_cex :
    (generateRecords (mockFetch 100 (fun _ _ => 0)) (fun _ _ => 0)).map
        countDone = some 0 ∧
      (some 0 : Option Nat) ≠ some 3 := by
  exact ⟨by decide, by decide⟩

set_option maxRecDepth 16000 in
/-- C3 (amended): in mock mode with the default fixtures, on any day and for
any random draws, the generated record set has exactly 5 records: 2 CRITICAL
(blockers), 2 WARNING (stalled), 1 HIGH (unassigned, with the UNASSIGNED
sentinel) and 0 DONE — `generate_csv` issues no `done` query — and the health
score computed from it is `100 - 25*2 - 10*2 - 5*1 = 25`. -/
theorem mock_mode_counts_and_health (today : Nat) (rnd : String → Nat → Nat)
    (draws : String → Nat → Nat) :
    ∃ recs : List Record,
      generateRecords (mockFetch today rnd) draws = some recs ∧
      countCritical recs = 2 ∧ countWarning recs = 2 ∧
      countUnassignedHigh recs = 1 ∧ countDone recs = 0 ∧
      recs.length = 5 ∧ calculate_sprint_health recs = 25 := by
  refine ⟨(generateRecords (mockFetch today rnd) draws).getD [], rfl,
    rfl, rfl, rfl, rfl, rfl, ?_⟩
  show max (100 - ((1 : Int) + 1) * 25 - ((1 : Int) + 1) * 10 - 1 * 5) 5 = 25
  norm_num

/-- A `random.choice([1, 2, 3, 5])` draw always lies in the choice list. -/
theorem randomChoice_mem_choices (r : Nat) :
    randomChoice [1, 2, 3, 5] r ∈ ([1, 2, 3, 5] : List Nat) := by
  have h4 : r % 4 = 0 ∨ r % 4 = 1 ∨ r % 4 = 2 ∨ r % 4 = 3 := by omega
  rcases h4 with h | h | h | h <;> simp [randomChoice, h]

/-- C9 counterexample: two invocations of the mock source with the same
category and day but different random draws return different payload
sequences — the story points differ — so the mock source is not a pure
function of the query category. -/
theorem mock_data_not_deterministic_cex :
    mock_data (jqlOf "GK" "blockers") 100 (fun _ => 0) ≠
      mock_data (jqlOf "GK" "blockers") 100 (fun _ => 1) := by
  decide

/-- C9 (amended): the mock source is deterministic aside from the randomized
story-points custom field: for any category and any two invocations on the same
day, erasing `customfield_10024` yields identical payload sequences, and every
story-points value is drawn from the fixed set `{1, 2, 3, 5}`. -/
theorem mock_data_deterministic_up_to_story_points (jql : String) (today : Nat)
    (r1 r2 : Nat → Nat) :
    (mock_data jql today r1).map eraseSP = (mock_data jql today r2).map eraseSP ∧
    ∀ i ∈ mock_data jql today r1,
      ∃ v ∈ ([1, 2, 3, 5] : List Nat), i.fields.customfield10024 = some v := by
  have spOk : ∀ i ∈ mock_data jql today r1,
      ∃ v ∈ ([1, 2, 3, 5] : List Nat), i.fields.customfield10024 = some v := by
    intro i hi
    unfold mock_data at hi
    split at hi
    · simp only [List.mem_cons, List.not_mem_nil, or_false] at hi
      rcases hi with h | h <;> subst h <;>
        exact ⟨randomChoice [1, 2, 3, 5] _, randomChoice_mem_choices _, rfl⟩
    · split at hi
      · simp only [List.mem_cons, List.not_mem_nil, or_false] at hi
        rcases hi with h | h <;> subst h <;>
          exact ⟨randomChoice [1, 2, 3, 5] _, randomChoice_mem_choices _, rfl⟩
      · split at hi
        · simp only [List.mem_cons, List.not_mem_nil, or_false] at hi
          subst hi
          exact ⟨randomChoice [1, 2, 3, 5] _, randomChoice_mem_choices _, rfl⟩
        · simp only [List.mem_cons, List.not_mem_nil, or_false] at hi
          subst hi
          exact ⟨randomChoice [1, 2, 3, 5] _, randomChoice_mem_choices _, rfl⟩
  refine ⟨?_, spOk⟩
  by_cases h1 : containsSub jql "Blocked" = true
  · simp [mock_data, h1, make, eraseSP]
  · by_cases h2 : containsSub jql "updated <=" = true
    · simp [mock_data, h1, h2, make, eraseSP]
    · by_cases h3 : containsSub jql "assignee is EMPTY" = true
      · simp [mock_data, h1, h2, h3, make, eraseSP]
      · simp [mock_data, h1, h2, h3, make, eraseSP]

set_option maxRecDepth 16000 in
/-- C9 witness: the determinism-up-to-story-points equation and the
story-points range at concrete inputs (the blockers category, day 100, two
distinct draw streams, the first returned payload). -/
theorem mock_data_deterministic_up_to_story_points_witness :
    (mock_data (jqlOf "GK" "blockers") 100 (fun _ => 0)).map eraseSP =
      (mock_data (jqlOf "GK" "blockers") 100 (fun _ => 1)).map eraseSP ∧
    ∃ v ∈ ([1, 2, 3, 5] : List Nat),
      (make "GK-124" "POS integration blocked by payment gateway timeout"
          "Blocked" (some "Alice Smith") "Highest" 1 2 100
          0).fields.customfield10024 = some v := by
  have h := mock_data_deterministic_up_to_story_points (jqlOf "GK" "blockers")
    100 (fun _ => 0) (fun _ => 1)
  exact ⟨h.1, h.2 _ (by decide)⟩

/-- C8 counterexample: normalization does not succeed on every raw payload.
In `generate_csv` a payload whose `fields` dict lacks the `assignee` key
raises `KeyError`; in `fetch_jira_dataframe` a payload whose `assignee` is
`null` raises `AttributeError` — in neither case is `UNASSIGNED` substituted. -/
theorem assignee_normalization_failure_cex :
    normalizeIssue "blockers"
        { key := "GK-999",
          fields := { summary := "s", statusName := "Blocked",
                      assignee := .absent, priorityName := some "High",
                      updated := "100", issuelinks := 0,
                      customfield10024 := some 3 } } 2 = none ∧
      jiraClientAssignee .null = none := by
  exact ⟨rfl, rfl⟩

/-- C8 (amended): the two normalizers handle missing owners differently, and
each has a raising case. In `generate_csv`, the sentinel is substituted exactly
for a `null` (falsy) assignee, a non-empty assignee object yields its display
name, and an absent `assignee` key (or an object without `displayName`) raises;
when normalization succeeds the record's assignee is `UNASSIGNED` or the
payload's display name. In `fetch_jira_dataframe`, an absent `assignee` key or
a missing `displayName` yields `UNASSIGNED`, an object yields its display name,
and a `null` assignee raises. -/
theorem assignee_substitution_rules (name : String) (issue : RawIssue)
    (d : Nat) (r : Record) (h : normalizeIssue name issue d = some r) :
    (issue.fields.assignee = .null → r.assignee = "UNASSIGNED") ∧
    (∀ n, issue.fields.assignee = .obj (some n) → r.assignee = n) ∧
    (issue.fields.assignee ≠ .absent ∧ issue.fields.assignee ≠ .obj none) ∧
    sprintAssignee .null = some "UNASSIGNED" ∧
    jiraClientAssignee .absent = some "UNASSIGNED" ∧
    jiraClientAssignee (.obj none) = some "UNASSIGNED" ∧
    (∀ n, jiraClientAssignee (.obj (some n)) = some n) := by
  refine ⟨?_, ?_, ?_, rfl, rfl, rfl, fun n => rfl⟩
  · intro ha
    unfold normalizeIssue at h
    rw [ha] at h
    simp only [sprintAssignee, Option.some.injEq] at h
    rw [← h]
  · intro n ha
    unfold normalizeIssue at h
    rw [ha] at h
    simp only [sprintAssignee, Option.some.injEq] at h
    rw [← h]
  · unfold normalizeIssue at h
    constructor
    · intro ha
      rw [ha] at h
      simp [sprintAssignee] at h
    · intro ha
      rw [ha] at h
      simp [sprintAssignee] at h

set_option maxRecDepth 16000 in
/-- C8 witness: the substitution rules instantiated at the concrete unassigned
mock payload (a `null` assignee), whose normalization substitutes the
sentinel. -/
theorem assignee_substitution_rules_witness :
    ((make "GK-130" "URGENT: Fix production bug in table ordering app" "To Do"
        none "Highest" 0 0 100 0).fields.assignee = .null →
      ({ queryType := "unassigned", issueKey := "GK-130",
         summary := "URGENT: Fix production bug in table ordering app",
         status := "To Do", assignee := "UNASSIGNED", priority := "Highest",
         storyPoints := 1, lastUpdated := "100",
         alertLevel := "HIGH" } : Record).assignee = "UNASSIGNED") ∧
    sprintAssignee .null = some "UNASSIGNED" := by
  have h := assignee_substitution_rules "unassigned"
    (make "GK-130" "URGENT: Fix production bug in table ordering app" "To Do"
      none "Highest" 0 0 100 0) 2
    { queryType := "unassigned", issueKey := "GK-130",
      summary := "URGENT: Fix production bug in table ordering app",
      status := "To Do", assignee := "UNASSIGNED", priority := "Highest",
      storyPoints := 1, lastUpdated := "100", alertLevel := "HIGH" }
    (by decide)
  exact ⟨h.1, h.2.2.2.1⟩

/-- C10: when alerting is globally disabled or the destinations map is empty,
`send_alerts` returns before the record file is read and attempts no
destination, whatever the record file holds. -/
theorem send_alerts_guards_skip_everything (cfg : AlertsConfig)
    (deliver : String → List Record → Except String Unit)
    (file : Option (List Record))
    (h : cfg.alerts_enabled = false ∨ cfg.destinations = []) :
    (send_alerts cfg deliver file).fileRead = false ∧
    attemptsOf (send_alerts cfg deliver file).result = [] ∧
    ((send_alerts cfg deliver file).result = .disabledGlobally ∨
      (send_alerts cfg deliver file).result = .noDestinations) := by
  rcases h with h | h
  · simp [send_alerts, h, attemptsOf]
  · cases hen : cfg.alerts_enabled
    · simp [send_alerts, hen, attemptsOf]
    · simp [send_alerts, hen, h, attemptsOf]

/-- C10 witness: a disabled configuration with one enabled destination and a
record file holding a CRITICAL record still reads nothing and attempts
nothing. -/
theorem send_alerts_guards_skip_everything_witness :
    (send_alerts
        { alerts_enabled := false,
          destinations := [("slack", { enabled := true })] }
        (fun _ _ => Except.ok ())
        (some [{ queryType := "blockers", issueKey := "GK-1", summary := "s",
                 status := "Blocked", assignee := "Alice", priority := "High",
                 storyPoints := 3, lastUpdated := "99",
                 alertLevel := "CRITICAL" }])).fileRead = false ∧
    attemptsOf (send_alerts
        { alerts_enabled := false,
          destinations := [("slack", { enabled := true })] }
        (fun _ _ => Except.ok ())
        (some [{ queryType := "blockers", issueKey := "GK-1", summary := "s",
                 status := "Blocked", assignee := "Alice", priority := "High",
                 storyPoints := 3, lastUpdated := "99",
                 alertLevel := "CRITICAL" }])).result = [] := by
  have h := send_alerts_guards_skip_everything
    { alerts_enabled := false,
      destinations := [("slack", { enabled := true })] }
    (fun _ _ => Except.ok ())
    (some [{ queryType := "blockers", issueKey := "GK-1", summary := "s",
             status := "Blocked", assignee := "Alice", priority := "High",
             storyPoints := 3, lastUpdated := "99",
             alertLevel := "CRITICAL" }])
    (Or.inl rfl)
  exact ⟨h.1, h.2.1⟩

/-- C5: with alerting enabled and destinations configured, an absent record
file or a record set without CRITICAL records makes `send_alerts` report "no
critical alerts" and invoke no destination; the missing file is recovered
locally by `_get_critical_issues` returning the empty critical subset. -/
theorem empty_critical_set_no_dispatch (cfg : AlertsConfig)
    (deliver : String → List Record → Except String Unit)
    (file : Option (List Record))
    (hen : cfg.alerts_enabled = true)
    (hne : cfg.destinations ≠ [])
    (h : file = none ∨ ∃ rows, file = some rows ∧
      rows.filter (fun r => r.alertLevel == "CRITICAL") = []) :
    getCriticalIssues none = [] ∧
    (send_alerts cfg deliver file).result = .noCritical ∧
    attemptsOf (send_alerts cfg deliver file).result = [] := by
  have hcrit : getCriticalIssues file = [] := by
    rcases h with h | ⟨rows, hf, hflt⟩
    · rw [h]; rfl
    · rw [hf]; exact hflt
  have hde : cfg.destinations.isEmpty = false := by
    cases hd : cfg.destinations
    · exact absurd hd hne
    · rfl
  refine ⟨rfl, ?_, ?_⟩ <;> simp [send_alerts, hen, hde, hcrit, attemptsOf]

/-- C5 witness: an enabled slack-only configuration with a missing record
file reports "no critical alerts" with no destination attempted. -/
theorem empty_critical_set_no_dispatch_witness :
    getCriticalIssues none = [] ∧
    (send_alerts
        { alerts_enabled := true,
          destinations := [("slack", { enabled := true })] }
        (fun _ _ => Except.ok ()) none).result = .noCritical := by
  have h := empty_critical_set_no_dispatch
    { alerts_enabled := true,
      destinations := [("slack", { enabled := true })] }
    (fun _ _ => Except.ok ()) none rfl (by decide) (Or.inl rfl)
  exact ⟨h.1, h.2.1⟩

/-- The dispatch loop is a map over the enabled destinations: each enabled
entry contributes exactly its own isolated attempt, in map order. -/
theorem sendLoop_eq_map (deliver : String → List Record → Except String Unit)
    (criticals : List Record) (dests : List (String × DestConfig)) :
    sendLoop deliver criticals dests =
      (dests.filter (fun d => d.2.enabled)).map
        (fun d => (d.1, attemptOne deliver criticals d.1)) := by
  induction dests with
  | nil => rfl
  | cons d rest ih =>
    obtain ⟨n, c⟩ := d
    cases hc : c.enabled <;> simp [sendLoop, hc, ih]

/-- C4: with a non-empty critical set, `send_alerts` routes to every enabled
destination: the attempts equal the isolated per-destination attempts over the
enabled entries of the map; destination `n` is attempted exactly once; its
outcome only depends on its own delivery behaviour (swapping the delivery
environment for one that agrees on `n` leaves `n`'s outcome unchanged); and an
unknown destination type name is recorded as a warning outcome, not a
failure of the run. -/
theorem destination_failure_isolation (cfg : AlertsConfig)
    (deliver : String → List Record → Except String Unit)
    (file : Option (List Record))
    (hen : cfg.alerts_enabled = true)
    (hcrit : getCriticalIssues file ≠ [])
    (hnd : (cfg.destinations.map Prod.fst).Nodup)
    (n : String) (c : DestConfig) (hmem : (n, c) ∈ cfg.destinations)
    (henab : c.enabled = true) :
    (send_alerts cfg deliver file).result =
      .routed (sendLoop deliver (getCriticalIssues file) cfg.destinations) ∧
    (n, attemptOne deliver (getCriticalIssues file) n) ∈
      attemptsOf (send_alerts cfg deliver file).result ∧
    (attemptsOf (send_alerts cfg deliver file).result).countP
      (fun a => a.1 == n) = 1 ∧
    (∀ deliver₂ : String → List Record → Except String Unit,
      deliver₂ n (getCriticalIssues file) = deliver n (getCriticalIssues file) →
      attemptOne deliver₂ (getCriticalIssues file) n =
        attemptOne deliver (getCriticalIssues file) n) ∧
    (n ≠ "slack" → n ≠ "teams" → n ≠ "email" →
      (n, Outcome.unknownType) ∈
        attemptsOf (send_alerts cfg deliver file).result) := by
  have hne : cfg.destinations.isEmpty = false := by
    cases hd : cfg.destinations
    · rw [hd] at hmem; cases hmem
    · rfl
  have hce : (getCriticalIssues file).isEmpty = false := by
    cases hc : getCriticalIssues file
    · exact absurd hc hcrit
    · rfl
  have hres : (send_alerts cfg deliver file).result =
      .routed (sendLoop deliver (getCriticalIssues file) cfg.destinations) := by
    simp [send_alerts, hen, hne, hce]
  have hatt : attemptsOf (send_alerts cfg deliver file).result =
      (cfg.destinations.filter (fun d => d.2.enabled)).map
        (fun d => (d.1, attemptOne deliver (getCriticalIssues file) d.1)) := by
    rw [hres, sendLoop_eq_map]; rfl
  have hmemf : (n, c) ∈ cfg.destinations.filter (fun d => d.2.enabled) :=
    List.mem_filter.mpr ⟨hmem, by simp [henab]⟩
  refine ⟨hres, ?_, ?_, ?_, ?_⟩
  · rw [hatt]
    exact List.mem_map.mpr ⟨(n, c), hmemf, rfl⟩
  · rw [hatt, List.countP_map, List.countP_filter]
    have hcount : List.countP (fun d => d.1 == n) cfg.destinations = 1 := by
      have : List.countP (fun d => d.1 == n) cfg.destinations =
          (cfg.destinations.map Prod.fst).count n := by
        rw [List.count, List.countP_map]
        rfl
      rw [this]
      exact List.count_eq_one_of_mem hnd
        (List.mem_map.mpr ⟨(n, c), hmem, rfl⟩)
    refine le_antisymm ?_ ?_
    · calc List.countP (fun d => decide (d.1 = n) && d.2.enabled)
            cfg.destinations
          ≤ List.countP (fun d => d.1 == n) cfg.destinations := by
            refine List.countP_mono_left ?_
            intro d _ hd
            simp only [Bool.and_eq_true, decide_eq_true_eq] at hd
            simp [hd.1]
        _ = 1 := hcount
    · refine Nat.one_le_iff_ne_zero.mpr ?_
      intro h0
      have := List.countP_eq_zero.mp h0 (n, c) hmem
      simp [henab] at this
  · intro deliver₂ hagree
    unfold attemptOne
    rw [hagree]
  · intro h1 h2 h3
    rw [hatt]
    refine List.mem_map.mpr ⟨(n, c), hmemf, ?_⟩
    simp only [attemptOne]
    rw [if_neg (by simp [h1, h2, h3])]

/-- C4 witness: three enabled destinations where the second (`teams`) raises on
delivery — the first and third are still attempted and succeed, the failure is
recorded for `teams` alone, and an unknown name would be recorded as a
warning. -/
theorem destination_failure_isolation_witness :
    attemptsOf (send_alerts
        { alerts_enabled := true,
          destinations := [("slack", { enabled := true }),
                           ("teams", { enabled := true }),
                           ("email", { enabled := true })] }
        (fun n _ => if n == "teams" then Except.error "boom" else Except.ok ())
        (some [{ queryType := "blockers", issueKey := "GK-1", summary := "s",
                 status := "Blocked", assignee := "Alice", priority := "High",
                 storyPoints := 3, lastUpdated := "99",
                 alertLevel := "CRITICAL" }])).result =
      [("slack", Outcome.delivered), ("teams", Outcome.deliveryFailed "boom"),
       ("email", Outcome.delivered)] ∧
    ("slack", Outcome.delivered) ∈ attemptsOf (send_alerts
        { alerts_enabled := true,
          destinations := [("slack", { enabled := true }),
                           ("teams", { enabled := true }),
                           ("email", { enabled := true })] }
        (fun n _ => if n == "teams" then Except.error "boom" else Except.ok ())
        (some [{ queryType := "blockers", issueKey := "GK-1", summary := "s",
                 status := "Blocked", assignee := "Alice", priority := "High",
                 storyPoints := 3, lastUpdated := "99",
                 alertLevel := "CRITICAL" }])).result := by
  have h := destination_failure_isolation
    { alerts_enabled := true,
      destinations := [("slack", { enabled := true }),
                       ("teams", { enabled := true }),
                       ("email", { enabled := true })] }
    (fun n _ => if n == "teams" then Except.error "boom" else Except.ok ())
    (some [{ queryType := "blockers", issueKey := "GK-1", summary := "s",
             status := "Blocked", assignee := "Alice", priority := "High",
             storyPoints := 3, lastUpdated := "99",
             alertLevel := "CRITICAL" }])
    rfl (by decide) (by decide) "slack" { enabled := true } (by decide) rfl
  refine ⟨by decide, ?_⟩
  have h2 := h.2.1
  exact h2

/-- A list ending in an appended singleton contains that element and survives
the empty-fallback guard. -/
theorem mem_of_append_singleton_fallback (A B C : List String)
    (m fb : String) :
    m ∈ (if A ++ B ++ C ++ [m] = [] then [fb] else A ++ B ++ C ++ [m]) := by
  have hm : m ∈ A ++ B ++ C ++ [m] := by simp
  rw [if_neg (List.ne_nil_of_mem hm)]
  exact hm

/-- C6: the KPI bundle's committed/completed sums, delivery percentage,
carryover, and the reduce-WIP recommendation rule. -/
theorem kpi_bundle_formulas (df : List Record) :
    (compute_kpis df).committed = (df.map (·.storyPoints)).sum ∧
    (compute_kpis df).completed =
      ((df.filter (fun r => r.status == "Done")).map (·.storyPoints)).sum ∧
    (compute_kpis df).delivery_pct =
      (if (compute_kpis df).committed ≠ 0 then
        round1 (((compute_kpis df).completed : ℚ) /
          ((compute_kpis df).committed : ℚ) * 100)
      else 0) ∧
    (compute_kpis df).carryover =
      ((compute_kpis df).committed : Int) -
        ((compute_kpis df).completed : Int) ∧
    ((compute_kpis df).delivery_pct < 80 →
      "Reduce WIP or slice stories smaller next sprint." ∈
        (compute_kpis df).recs) := by
  refine ⟨rfl, rfl, rfl, rfl, ?_⟩
  intro h
  show "Reduce WIP or slice stories smaller next sprint." ∈
    (compute_kpis df).recs
  unfold compute_kpis at h ⊢
  simp only at h ⊢
  rw [if_pos h]
  exact mem_of_append_singleton_fallback _ _ _ _ _

/-- C6 witness: the spec's scenario — a record set with committed 40 and
completed 28 yields delivery 70.0, carryover 12, and the reduce-WIP
recommendation. -/
theorem kpi_bundle_formulas_witness :
    (compute_kpis
        [{ queryType := "done", issueKey := "GK-10", summary := "a",
           status := "Done", assignee := "Alice", priority := "High",
           storyPoints := 28, lastUpdated := "99", alertLevel := "DONE" },
         { queryType := "stalled", issueKey := "GK-11", summary := "b",
           status := "In Progress", assignee := "Bob", priority := "Medium",
           storyPoints := 12, lastUpdated := "99",
           alertLevel := "WARNING" }]).committed = 40 ∧
    (compute_kpis
        [{ queryType := "done", issueKey := "GK-10", summary := "a",
           status := "Done", assignee := "Alice", priority := "High",
           storyPoints := 28, lastUpdated := "99", alertLevel := "DONE" },
         { queryType := "stalled", issueKey := "GK-11", summary := "b",
           status := "In Progress", assignee := "Bob", priority := "Medium",
           storyPoints := 12, lastUpdated := "99",
           alertLevel := "WARNING" }]).completed = 28 ∧
    (compute_kpis
        [{ queryType := "done", issueKey := "GK-10", summary := "a",
           status := "Done", assignee := "Alice", priority := "High",
           storyPoints := 28, lastUpdated := "99", alertLevel := "DONE" },
         { queryType := "stalled", issueKey := "GK-11", summary := "b",
           status := "In Progress", assignee := "Bob", priority := "Medium",
           storyPoints := 12, lastUpdated := "99",
           alertLevel := "WARNING" }]).delivery_pct = 70 ∧
    (compute_kpis
        [{ queryType := "done", issueKey := "GK-10", summary := "a",
           status := "Done", assignee := "Alice", priority := "High",
           storyPoints := 28, lastUpdated := "99", alertLevel := "DONE" },
         { queryType := "stalled", issueKey := "GK-11", summary := "b",
           status := "In Progress", assignee := "Bob", priority := "Medium",
           storyPoints := 12, lastUpdated := "99",
           alertLevel := "WARNING" }]).carryover = 12 ∧
    "Reduce WIP or slice stories smaller next sprint." ∈
      (compute_kpis
        [{ queryType := "done", issueKey := "GK-10", summary := "a",
           status := "Done", assignee := "Alice", priority := "High",
           storyPoints := 28, lastUpdated := "99", alertLevel := "DONE" },
         { queryType := "stalled", issueKey := "GK-11", summary := "b",
           status := "In Progress", assignee := "Bob", priority := "Medium",
           storyPoints := 12, lastUpdated := "99",
           alertLevel := "WARNING" }]).recs := by
  have h := kpi_bundle_formulas
    [{ queryType := "done", issueKey := "GK-10", summary := "a",
       status := "Done", assignee := "Alice", priority := "High",
       storyPoints := 28, lastUpdated := "99", alertLevel := "DONE" },
     { queryType := "stalled", issueKey := "GK-11", summary := "b",
       status := "In Progress", assignee := "Bob", priority := "Medium",
       storyPoints := 12, lastUpdated := "99", alertLevel := "WARNING" }]
  have hpct : (compute_kpis
      [{ queryType := "done", issueKey := "GK-10", summary := "a",
         status := "Done", assignee := "Alice", priority := "High",
         storyPoints := 28, lastUpdated := "99", alertLevel := "DONE" },
       { queryType := "stalled", issueKey := "GK-11", summary := "b",
         status := "In Progress", assignee := "Bob", priority := "Medium",
         storyPoints := 12, lastUpdated := "99",
         alertLevel := "WARNING" }]).delivery_pct = 70 := by
    have hcom : (compute_kpis
        [{ queryType := "done", issueKey := "GK-10", summary := "a",
           status := "Done", assignee := "Alice", priority := "High",
           storyPoints := 28, lastUpdated := "99", alertLevel := "DONE" },
         { queryType := "stalled", issueKey := "GK-11", summary := "b",
           status := "In Progress", assignee := "Bob", priority := "Medium",
           storyPoints := 12, lastUpdated := "99",
           alertLevel := "WARNING" }]).committed = 40 := by decide
    have hcomp : (compute_kpis
        [{ queryType := "done", issueKey := "GK-10", summary := "a",
           status := "Done", assignee := "Alice", priority := "High",
           storyPoints := 28, lastUpdated := "99", alertLevel := "DONE" },
         { queryType := "stalled", issueKey := "GK-11", summary := "b",
           status := "In Progress", assignee := "Bob", priority := "Medium",
           storyPoints := 12, lastUpdated := "99",
           alertLevel := "WARNING" }]).completed = 28 := by decide
    rw [h.2.2.1, hcom, hcomp]
    norm_num [round1, round_eq]
  refine ⟨h.1, h.2.1, hpct, by decide, ?_⟩
  exact h.2.2.2.2 (by rw [hpct]; norm_num)

/-- Unfolding one association-list entry in a key's total. -/
theorem valueOf_cons (a : String) (b : Nat) (rest : List (String × Nat))
    (q : String) :
    valueOf ((a, b) :: rest) q =
      (if a = q then b else 0) + valueOf rest q := by
  by_cases h : a = q
  · simp [valueOf, List.filter_cons, h]
  · simp [valueOf, List.filter_cons, h]

/-- A key that does not occur in an association list has total zero. -/
theorem valueOf_eq_zero_of_not_key (q : String) :
    ∀ w : List (String × Nat), q ∉ w.map Prod.fst → valueOf w q = 0 := by
  intro w
  induction w with
  | nil => intro _; rfl
  | cons e rest ih =>
    intro h
    obtain ⟨a, b⟩ := e
    simp only [List.map_cons, List.mem_cons] at h
    push_neg at h
    rw [valueOf_cons, if_neg (fun hc => h.1 hc.symm), ih h.2]

/-- `addSP` adds `sp` to the values stored under key `person` and leaves every
other key's total unchanged. -/
theorem addSP_valueOf (person : String) (sp : Nat) (q : String) :
    ∀ w : List (String × Nat),
      valueOf (addSP person sp w) q =
        valueOf w q + (if q = person then sp else 0) := by
  intro w
  induction w with
  | nil =>
    show valueOf [(person, sp)] q = valueOf [] q + _
    rw [valueOf_cons]
    have h0 : valueOf ([] : List (String × Nat)) q = 0 := rfl
    by_cases h : q = person
    · rw [if_pos h.symm, if_pos h, h0]; omega
    · rw [if_neg (fun hc => h hc.symm), if_neg h, h0]
  | cons e rest ih =>
    obtain ⟨a, b⟩ := e
    by_cases hap : a = person
    · subst hap
      have haddSP : addSP a sp ((a, b) :: rest) = (a, b + sp) :: rest := by
        simp [addSP]
      rw [haddSP, valueOf_cons, valueOf_cons]
      by_cases hq : q = a
      · rw [if_pos hq.symm, if_pos hq.symm, if_pos hq]; omega
      · rw [if_neg (fun hc => hq hc.symm), if_neg (fun hc => hq hc.symm),
          if_neg hq]
        omega
    · simp only [addSP, if_neg hap]
      rw [valueOf_cons, valueOf_cons, ih]
      omega

/-- Folding the workload accumulation over rows adds each row's story points
to its assignee's total. -/
theorem workload_foldl_valueOf (q : String) :
    ∀ (rows : List Record) (w : List (String × Nat)),
      valueOf (rows.foldl (fun w r => addSP r.assignee r.storyPoints w) w) q =
        valueOf w q + totalSP rows q := by
  intro rows
  induction rows with
  | nil => intro w; simp [totalSP, valueOf]
  | cons r rest ih =>
    intro w
    rw [List.foldl_cons, ih, addSP_valueOf]
    have htot : totalSP (r :: rest) q =
        (if r.assignee = q then r.storyPoints else 0) + totalSP rest q := by
      by_cases h : r.assignee = q <;>
        simp [totalSP, List.filter_cons, h]
    rw [htot]
    by_cases h : q = r.assignee
    · rw [if_pos h, if_pos h.symm]
      omega
    · rw [if_neg h, if_neg (fun hh => h hh.symm)]
      omega

/-- The workload total of any key equals the aggregated story points of that
key's records. -/
theorem workload_valueOf (rows : List Record) (q : String) :
    valueOf (workload rows) q = totalSP rows q := by
  have h := workload_foldl_valueOf q rows []
  simpa [workload, valueOf] using h

/-- The keys of `addSP person sp w` are those of `w`, with `person` appended
when new. -/
theorem addSP_keys (person : String) (sp : Nat) :
    ∀ w : List (String × Nat),
      (addSP person sp w).map Prod.fst =
        if person ∈ w.map Prod.fst then w.map Prod.fst
        else w.map Prod.fst ++ [person] := by
  intro w
  induction w with
  | nil => simp [addSP]
  | cons e rest ih =>
    obtain ⟨a, b⟩ := e
    by_cases h : a = person
    · subst h
      simp [addSP]
    · simp only [addSP, if_neg h, List.map_cons, List.mem_cons]
      rw [ih]
      by_cases hm : person ∈ rest.map Prod.fst
      · rw [if_pos hm, if_pos (Or.inr hm)]
      · rw [if_neg hm, if_neg (by
          intro hc
          rcases hc with hc | hc
          · exact h hc.symm
          · exact hm hc)]
        simp

/-- `addSP` preserves distinctness of the keys. -/
theorem addSP_keys_nodup (person : String) (sp : Nat)
    (w : List (String × Nat)) (h : (w.map Prod.fst).Nodup) :
    ((addSP person sp w).map Prod.fst).Nodup := by
  rw [addSP_keys]
  by_cases hm : person ∈ w.map Prod.fst
  · rw [if_pos hm]; exact h
  · rw [if_neg hm]
    refine List.Nodup.append h (List.nodup_singleton _) ?_
    intro x hx hx2
    simp only [List.mem_singleton] at hx2
    subst hx2
    exact hm hx

/-- The workload dict has distinct keys. -/
theorem workload_keys_nodup (rows : List Record) :
    ((workload rows).map Prod.fst).Nodup := by
  suffices h : ∀ (rs : List Record) (w : List (String × Nat)),
      (w.map Prod.fst).Nodup →
      ((rs.foldl (fun w r => addSP r.assignee r.storyPoints w) w).map
        Prod.fst).Nodup by
    exact h rows [] (by simp)
  intro rs
  induction rs with
  | nil => intro w hw; simpa using hw
  | cons r rest ih =>
    intro w hw
    rw [List.foldl_cons]
    exact ih _ (addSP_keys_nodup _ _ _ hw)

/-- In an association list with distinct keys, a stored pair's value is the
key's total. -/
theorem mem_value_eq_valueOf :
    ∀ (w : List (String × Nat)) (p : String) (t : Nat),
      (w.map Prod.fst).Nodup → (p, t) ∈ w → t = valueOf w p := by
  intro w
  induction w with
  | nil => intro p t _ hm; cases hm
  | cons e rest ih =>
    intro p t hnd hm
    obtain ⟨a, b⟩ := e
    simp only [List.map_cons, List.nodup_cons] at hnd
    rcases List.mem_cons.mp hm with h | h
    · have hp : p = a := congrArg Prod.fst h
      have ht : t = b := congrArg Prod.snd h
      subst hp
      subst ht
      have hz : valueOf rest p = 0 := by
        refine valueOf_eq_zero_of_not_key p rest ?_
        exact hnd.1
      rw [valueOf_cons, if_pos rfl, hz]
      omega
    · have hne : a ≠ p := by
        intro hc
        exact hnd.1 (hc ▸ List.mem_map.mpr ⟨(p, t), h, rfl⟩)
      rw [valueOf_cons, if_neg hne]
      have := ih p t hnd.2 h
      omega

/-- In an association list with distinct keys, every key holds its total as a
stored pair. -/
theorem key_mem_pair_mem :
    ∀ (w : List (String × Nat)) (p : String),
      (w.map Prod.fst).Nodup → p ∈ w.map Prod.fst →
      (p, valueOf w p) ∈ w := by
  intro w
  induction w with
  | nil => intro p _ hm; cases hm
  | cons e rest ih =>
    intro p hnd hm
    obtain ⟨a, b⟩ := e
    simp only [List.map_cons, List.nodup_cons] at hnd
    rcases List.mem_cons.mp hm with h | h
    · subst h
      have hz : valueOf rest p = 0 := valueOf_eq_zero_of_not_key p rest hnd.1
      rw [valueOf_cons, if_pos rfl, hz]
      exact List.mem_cons_self _ _
    · have hne : a ≠ p := by
        intro hc
        exact hnd.1 (hc ▸ h)
      rw [valueOf_cons, if_neg hne]
      exact List.mem_cons_of_mem _ (by simpa using ih p hnd.2 h)

/-- A key appears in the accumulated workload dict exactly when it is a key of
the accumulator or an assignee of some row. -/
theorem workload_keys_cover (q : String) :
    ∀ (rows : List Record) (w : List (String × Nat)),
      (q ∈ (rows.foldl (fun w r => addSP r.assignee r.storyPoints w) w).map
          Prod.fst ↔
        q ∈ w.map Prod.fst ∨ q ∈ rows.map (·.assignee)) := by
  intro rows
  induction rows with
  | nil => intro w; simp
  | cons r rest ih =>
    intro w
    rw [List.foldl_cons, ih]
    constructor
    · rintro (h | h)
      · rw [addSP_keys] at h
        by_cases hm : r.assignee ∈ w.map Prod.fst
        · rw [if_pos hm] at h
          exact Or.inl h
        · rw [if_neg hm] at h
          rcases List.mem_append.mp h with h | h
          · exact Or.inl h
          · simp only [List.mem_singleton] at h
            exact Or.inr (by simp [h])
      · exact Or.inr (List.mem_cons_of_mem _ h)
    · rintro (h | h)
      · left
        rw [addSP_keys]
        by_cases hm : r.assignee ∈ w.map Prod.fst
        · rw [if_pos hm]; exact h
        · rw [if_neg hm]; exact List.mem_append_left _ h
      · rcases List.mem_cons.mp h with h | h
        · left
          rw [addSP_keys]
          by_cases hm : r.assignee ∈ w.map Prod.fst
          · rw [if_pos hm]; exact h ▸ hm
          · rw [if_neg hm]
            exact List.mem_append_right _ (by simp [h])
        · exact Or.inr h

/-- C7: the overload flag fires for a person iff the person is not the
UNASSIGNED sentinel and the aggregated story points over all of that person's
records is at least 13; in particular the sentinel is never flagged. -/
theorem overload_iff_threshold (rows : List Record) (p : String) :
    (p ∈ overloaded rows ↔ p ≠ "UNASSIGNED" ∧ 13 ≤ totalSP rows p) ∧
    "UNASSIGNED" ∉ overloaded rows := by
  have hnd := workload_keys_nodup rows
  have hiff : p ∈ overloaded rows ↔ p ≠ "UNASSIGNED" ∧ 13 ≤ totalSP rows p := by
    constructor
    · intro h
      obtain ⟨⟨q, t⟩, hqt, hq⟩ := List.mem_map.mp h
      obtain ⟨hmem, hpred⟩ := List.mem_filter.mp hqt
      simp only at hq
      subst hq
      simp only [Bool.and_eq_true, decide_eq_true_eq, bne_iff_ne,
        ne_eq] at hpred
      have ht := mem_value_eq_valueOf _ _ _ hnd hmem
      rw [workload_valueOf] at ht
      exact ⟨hpred.2, ht ▸ hpred.1⟩
    · rintro ⟨hne, hge⟩
      have hkey : p ∈ (workload rows).map Prod.fst := by
        have h0 : totalSP rows p ≠ 0 := by omega
        have hp : p ∈ rows.map (·.assignee) := by
          by_contra hc
          apply h0
          rw [totalSP, List.filter_eq_nil_iff.mpr, List.map_nil, List.sum_nil]
          intro r hr
          simp only [beq_iff_eq]
          intro he
          exact hc (List.mem_map.mpr ⟨r, hr, he⟩)
        exact (workload_keys_cover p rows []).mpr (Or.inr hp)
      have hpair := key_mem_pair_mem _ _ hnd hkey
      rw [workload_valueOf] at hpair
      refine List.mem_map.mpr ⟨(p, totalSP rows p), ?_, rfl⟩
      refine List.mem_filter.mpr ⟨hpair, ?_⟩
      simp [hge, hne]
  refine ⟨hiff, ?_⟩
  intro hc
  obtain ⟨⟨q, t⟩, hqt, hq⟩ := List.mem_map.mp hc
  obtain ⟨_, hpred⟩ := List.mem_filter.mp hqt
  simp only at hq
  subst hq
  simp at hpred

/-- C7 witness: a concrete record set where Alice holds 13 story points across
two records, Bob 5, and an unassigned HIGH record carries 8 — Alice is
flagged, and the sentinel is not, despite its 8 points. -/
theorem overload_iff_threshold_witness :
    ("Alice" ∈ overloaded
        [{ queryType := "blockers", issueKey := "GK-1", summary := "a",
           status := "Blocked", assignee := "Alice", priority := "High",
           storyPoints := 8, lastUpdated := "99", alertLevel := "CRITICAL" },
         { queryType := "stalled", issueKey := "GK-2", summary := "b",
           status := "In Progress", assignee := "Bob", priority := "Medium",
           storyPoints := 5, lastUpdated := "99", alertLevel := "WARNING" },
         { queryType := "stalled", issueKey := "GK-3", summary := "c",
           status := "In Progress", assignee := "Alice", priority := "Low",
           storyPoints := 5, lastUpdated := "99", alertLevel := "WARNING" },
         { queryType := "unassigned", issueKey := "GK-4", summary := "d",
           status := "To Do", assignee := "UNASSIGNED", priority := "Highest",
           storyPoints := 8, lastUpdated := "99", alertLevel := "HIGH" }] ↔
      "Alice" ≠ "UNASSIGNED" ∧ 13 ≤ totalSP
        [{ queryType := "blockers", issueKey := "GK-1", summary := "a",
           status := "Blocked", assignee := "Alice", priority := "High",
           storyPoints := 8, lastUpdated := "99", alertLevel := "CRITICAL" },
         { queryType := "stalled", issueKey := "GK-2", summary := "b",
           status := "In Progress", assignee := "Bob", priority := "Medium",
           storyPoints := 5, lastUpdated := "99", alertLevel := "WARNING" },
         { queryType := "stalled", issueKey := "GK-3", summary := "c",
           status := "In Progress", assignee := "Alice", priority := "Low",
           storyPoints := 5, lastUpdated := "99", alertLevel := "WARNING" },
         { queryType := "unassigned", issueKey := "GK-4", summary := "d",
           status := "To Do", assignee := "UNASSIGNED", priority := "Highest",
           storyPoints := 8, lastUpdated := "99", alertLevel := "HIGH" }]
        "Alice") ∧
    "UNASSIGNED" ∉ overloaded
        [{ queryType := "blockers", issueKey := "GK-1", summary := "a",
           status := "Blocked", assignee := "Alice", priority := "High",
           storyPoints := 8, lastUpdated := "99", alertLevel := "CRITICAL" },
         { queryType := "stalled", issueKey := "GK-2", summary := "b",
           status := "In Progress", assignee := "Bob", priority := "Medium",
           storyPoints := 5, lastUpdated := "99", alertLevel := "WARNING" },
         { queryType := "stalled", issueKey := "GK-3", summary := "c",
           status := "In Progress", assignee := "Alice", priority := "Low",
           storyPoints := 5, lastUpdated := "99", alertLevel := "WARNING" },
         { queryType := "unassigned", issueKey := "GK-4", summary := "d",
           status := "To Do", assignee := "UNASSIGNED", priority := "Highest",
           storyPoints := 8, lastUpdated := "99", alertLevel := "HIGH" }] := by
  exact overload_iff_threshold
    [{ queryType := "blockers", issueKey := "GK-1", summary := "a",
       status := "Blocked", assignee := "Alice", priority := "High",
       storyPoints := 8, lastUpdated := "99", alertLevel := "CRITICAL" },
     { queryType := "stalled", issueKey := "GK-2", summary := "b",
       status := "In Progress", assignee := "Bob", priority := "Medium",
       storyPoints := 5, lastUpdated := "99", alertLevel := "WARNING" },
     { queryType := "stalled", issueKey := "GK-3", summary := "c",
       status := "In Progress", assignee := "Alice", priority := "Low",
       storyPoints := 5, lastUpdated := "99", alertLevel := "WARNING" },
     { queryType := "unassigned", issueKey := "GK-4", summary := "d",
       status := "To Do", assignee := "UNASSIGNED", priority := "Highest",
       storyPoints := 8, lastUpdated := "99", alertLevel := "HIGH" }]
    "Alice"

end SprintAnalysis
